import Mathlib

/-!
Shallow embedding of `plugin_manager.py` from the StarryPy repository.

The module defines a `PluginManager` holding an ordered list of loaded
plugin instances (`self.plugins`) and a list `self.plugin_names`
(initialized to `[]` and, notably, never appended to anywhere in the file).
Its operations are:

* `load_plugins(plugin_dir)` — walks directory entries, derives a candidate
  module name from each `.py` file or sub-directory, imports it, instantiates
  every exposed subclass of the base plugin class (excluding the base class
  itself), skips an instance whose `name` is in `plugin_names`, resolves each
  name in the instance's `depends` list against the current registry
  (converting a `PluginNotFound` from the lookup into `MissingDependency`),
  stores the resolved instance into the dependent's `plugins` dict, and
  appends the instance to `self.plugins`.  The whole per-candidate body sits
  in a `try ... except ImportError: pass` block.
* `activate_plugins` / `deactivate_plugins` — call the hook on each plugin
  in load order, with no exception handling.
* `do(protocol, command, data)` — for each plugin in load order: set
  `plugin.protocol = protocol`, call
  `getattr(plugin, command, lambda _: True)(data)`, replace a `None` result
  by `True`, collect the results, and return `all(return_values)` (Python
  truthiness conjunction).
* `get_by_name(name)` — case-insensitive linear scan in load order; raises
  `PluginNotFound("No plugin with name=%s found." % name.lower())` when no
  plugin matches.

External collaborators (the filesystem listing, `__import__`, the classes a
module exposes, plugin bodies) are modelled as explicit parameters; Python
exceptions are modelled by explicit error values threaded through the
control flow with exactly the `except` clauses the source has.  Object
identity of plugin instances is modelled by an `id` field.
-/

namespace StarryPy

/-- A Python value as far as `do`'s result handling is concerned:
`None`, a bool, an int or a string, with Python truthiness. -/
inductive PyVal where
  | none : PyVal
  | bool : Bool → PyVal
  | int : Int → PyVal
  | str : String → PyVal
deriving DecidableEq, Repr

/-- Python truthiness of a `PyVal` (what `all(...)` tests). -/
def PyVal.truthy : PyVal → Bool
  | PyVal.none => false
  | PyVal.bool b => b
  | PyVal.int n => decide (n ≠ 0)
  | PyVal.str s => decide (s ≠ "")

/-- The exception kinds relevant to `plugin_manager.py`:
`ImportError`, the module's own `DuplicatePluginError`, `PluginNotFound`
(carrying its message), its subclass `MissingDependency` (carrying the
missing name), and a catch-all for any other exception a plugin body
may raise (carrying a message). -/
inductive PyError where
  | importError : PyError
  | duplicatePlugin : PyError
  | pluginNotFound : String → PyError
  | missingDependency : String → PyError
  | otherError : String → PyError
deriving DecidableEq, Repr

/-- `isinstance(e, ImportError)` — what `except ImportError` catches. -/
def PyError.isImportError : PyError → Bool
  | PyError.importError => true
  | _ => false

/-- `isinstance(e, PluginNotFound)` — what `except PluginNotFound` catches;
`MissingDependency` subclasses `PluginNotFound`. -/
def PyError.isPluginNotFound : PyError → Bool
  | PyError.pluginNotFound _ => true
  | PyError.missingDependency _ => true
  | _ => false

/-- A loaded plugin instance.  `id` models Python object identity.
`plugins` is the instance's own `plugins` dict (the spec's
`dependency_refs`), mapping a dependency name to the identity of the
resolved instance.  `protocol` is the transient field `do` overwrites.
A command method is modelled as a pure function of the plugin's
`protocol` field (set by `do` just before the call) and the `data`
argument.  `activateRaises` / `deactivateRaises` give the behaviour of
the instance's lifecycle hooks: `some e` means the hook raises `e`. -/
structure PluginState where
  id : Nat
  name : String
  depends : Option (List String)
  plugins : List (String × Nat)
  protocol : Option Nat
  methods : List (String × (Option Nat → PyVal → PyVal))
  activateRaises : Option PyError
  deactivateRaises : Option PyError

/-- A class exposed by an imported module, as `load_plugins` sees it:
whether `issubclass(plugin, self.base_class)` holds, whether
`plugin is self.base_class`, and what `plugin(self.config)` does
(returns an instance or raises). -/
structure PluginClass where
  isBaseSubclass : Bool
  isBaseItself : Bool
  instantiate : Except PyError PluginState

/-- A directory entry as `os.listdir` yields it: a file name plus
whether `os.path.isdir` holds for it. -/
structure DirEntry where
  fname : String
  isDir : Bool

/-- The import environment: what `__import__(name, ...)` followed by
`inspect.getmembers(mod, inspect.isclass)` yields for a module name —
the list of exposed classes, or the exception the import raises. -/
def Imports : Type := String → Except PyError (List PluginClass)

/-- The manager state: `self.plugins` (the registry, in load order) and
`self.plugin_names`. -/
structure PluginManager where
  plugins : List PluginState
  plugin_names : List String

/-- Lines 41–42 of `__init__`: `self.plugins = []`, `self.plugin_names = []`.
The rest of `__init__` (config lookup, path resolution and the two
start-up `load_plugins` calls) involves external collaborators; loading
sequences are made explicit via `load_plugins` below. -/
def PluginManager.mkEmpty : PluginManager :=
  { plugins := [], plugin_names := [] }

/-- Python `s.endswith(suffix)`, computed on the character list. -/
def strEndsWith (s suffix : String) : Bool :=
  List.isSuffixOf suffix.data s.data

/-- Python `s[:-n]` for `n ≤ len(s)`: drop the last `n` characters. -/
def strDropRight (s : String) (n : Nat) : String :=
  String.mk (s.data.take (s.data.length - n))

/-- Python `s.lower()`, computed on the character list. -/
def strLower (s : String) : String :=
  String.mk (s.data.map Char.toLower)

/-- First-match lookup in a `(String × Nat)` dict (Python `d[k]`). -/
def dictGet (m : List (String × Nat)) (k : String) : Option Nat :=
  match m with
  | [] => Option.none
  | (k2, v) :: rest => if k2 = k then some v else dictGet rest k

/-- Python dict assignment `d[k] = v`: overwrite the existing entry for
`k`, else append a new one. -/
def dictSet (m : List (String × Nat)) (k : String) (v : Nat) :
    List (String × Nat) :=
  match m with
  | [] => [(k, v)]
  | (k2, v2) :: rest =>
    if k2 = k then (k, v) :: rest else (k2, v2) :: dictSet rest k v

/-- `getattr(plugin, command, default)` restricted to the plugin's command
methods: first entry whose name equals `command`. -/
def getMethod (methods : List (String × (Option Nat → PyVal → PyVal)))
    (command : String) : Option (Option Nat → PyVal → PyVal) :=
  match methods with
  | [] => Option.none
  | (nm, f) :: rest => if nm = command then some f else getMethod rest command

/-- The scan loop of `get_by_name`: first plugin whose lower-cased name
equals the lower-cased query, else `PluginNotFound` with the source's
message format. -/
def getByNameList (name : String) :
    List PluginState → Except PyError PluginState
  | [] =>
    Except.error
      (PyError.pluginNotFound ("No plugin with name=" ++ strLower name ++ " found."))
  | p :: rest =>
    if strLower p.name = strLower name then Except.ok p
    else getByNameList name rest

/-- `PluginManager.get_by_name`. -/
def PluginManager.get_by_name (pm : PluginManager) (name : String) :
    Except PyError PluginState :=
  getByNameList name pm.plugins

/-- The `for dependency in plugin_instance.depends` loop: look each name up
in the registry; a `PluginNotFound` from the lookup is re-raised as
`MissingDependency(dependency)`; on success the resolved instance is
stored into the dependent's `plugins` dict. -/
def resolveDeps (pm : PluginManager) (inst : PluginState) :
    List String → Except PyError PluginState
  | [] => Except.ok inst
  | d :: rest =>
    match pm.get_by_name d with
    | Except.error e =>
      if e.isPluginNotFound then Except.error (PyError.missingDependency d)
      else Except.error e
    | Except.ok dep =>
      resolveDeps pm { inst with plugins := dictSet inst.plugins d dep.id } rest

/-- The `for _, plugin in inspect.getmembers(...)` loop body of
`load_plugins`, over the classes of one imported module.  Returns the
updated manager and, when an exception escapes the loop, that exception
(with the manager state reached so far). -/
def loadMembers (pm : PluginManager) :
    List PluginClass → PluginManager × Option PyError
  | [] => (pm, Option.none)
  | cls :: rest =>
    if cls.isBaseSubclass && !cls.isBaseItself then
      match cls.instantiate with
      | Except.error e => (pm, some e)
      | Except.ok inst =>
        if inst.name ∈ pm.plugin_names then loadMembers pm rest
        else
          match inst.depends with
          | Option.none =>
            loadMembers { pm with plugins := pm.plugins ++ [inst] } rest
          | some deps =>
            match resolveDeps pm inst deps with
            | Except.error e => (pm, some e)
            | Except.ok inst2 =>
              loadMembers { pm with plugins := pm.plugins ++ [inst2] } rest
    else loadMembers pm rest

/-- `if f.endswith(".py"): name = f[:-3] / elif isdir: name = f / else: continue`. -/
def candidateName (e : DirEntry) : Option String :=
  if strEndsWith e.fname ".py" then some (strDropRight e.fname 3)
  else if e.isDir then some e.fname
  else Option.none

/-- One candidate's `try ... except ImportError as e: pass` block: import the
module, run the member loop; an `ImportError` escaping either is swallowed
(candidate skipped), any other exception propagates. -/
def loadCandidate (imports : Imports) (pm : PluginManager) (name : String) :
    PluginManager × Option PyError :=
  match imports name with
  | Except.error e =>
    if e.isImportError then (pm, Option.none) else (pm, some e)
  | Except.ok classes =>
    match loadMembers pm classes with
    | (pm2, Option.none) => (pm2, Option.none)
    | (pm2, some e) =>
      if e.isImportError then (pm2, Option.none) else (pm2, some e)

/-- `PluginManager.load_plugins(plugin_dir)`: iterate the directory entries;
an exception escaping a candidate aborts the remaining entries, with the
manager state reached so far. -/
def PluginManager.load_plugins (imports : Imports) (pm : PluginManager) :
    List DirEntry → PluginManager × Option PyError
  | [] => (pm, Option.none)
  | e :: rest =>
    match candidateName e with
    | Option.none => PluginManager.load_plugins imports pm rest
    | some nm =>
      match loadCandidate imports pm nm with
      | (pm2, Option.none) => PluginManager.load_plugins imports pm2 rest
      | (pm2, some err) => (pm2, some err)

/-- The `for plugin in self.plugins: plugin.activate()` loop, with no
exception handling.  Returns the identities of the plugins whose hook was
invoked, in order, and the exception that stopped the iteration, if any. -/
def activateLoop : List PluginState → List Nat × Option PyError
  | [] => ([], Option.none)
  | p :: rest =>
    match p.activateRaises with
    | some e => ([p.id], some e)
    | Option.none =>
      let r := activateLoop rest
      (p.id :: r.1, r.2)

/-- The `for plugin in self.plugins: plugin.deactivate()` loop. -/
def deactivateLoop : List PluginState → List Nat × Option PyError
  | [] => ([], Option.none)
  | p :: rest =>
    match p.deactivateRaises with
    | some e => ([p.id], some e)
    | Option.none =>
      let r := deactivateLoop rest
      (p.id :: r.1, r.2)

/-- `PluginManager.activate_plugins`. -/
def PluginManager.activate_plugins (pm : PluginManager) :
    List Nat × Option PyError :=
  activateLoop pm.plugins

/-- `PluginManager.deactivate_plugins`. -/
def PluginManager.deactivate_plugins (pm : PluginManager) :
    List Nat × Option PyError :=
  deactivateLoop pm.plugins

/-- The per-plugin result inside `do`:
`res = getattr(plugin, command, lambda _: True)(data)` evaluated after
`plugin.protocol = protocol`, then `if res is None: res = True`. -/
def pluginResult (protocol : Nat) (command : String) (data : PyVal)
    (p : PluginState) : PyVal :=
  let res :=
    match getMethod p.methods command with
    | some f => f (some protocol) data
    | Option.none => PyVal.bool true
  if res = PyVal.none then PyVal.bool true else res

/-- The `for plugin in self.plugins` loop of `do`: set the protocol field,
invoke the method (or the default), normalize `None` to `True`, collect. -/
def doLoop (protocol : Nat) (command : String) (data : PyVal) :
    List PluginState → List PluginState × List PyVal
  | [] => ([], [])
  | p :: rest =>
    let p2 := { p with protocol := some protocol }
    let res :=
      match getMethod p2.methods command with
      | some f => f p2.protocol data
      | Option.none => PyVal.bool true
    let res2 := if res = PyVal.none then PyVal.bool true else res
    let r := doLoop protocol command data rest
    (p2 :: r.1, res2 :: r.2)

/-- `PluginManager.do(protocol, command, data)` (`do` is reserved in Lean):
returns the mutated manager (every plugin's `protocol` field overwritten)
and `all(return_values)`. -/
def PluginManager.doCommand (pm : PluginManager) (protocol : Nat)
    (command : String) (data : PyVal) : PluginManager × Bool :=
  let r := doLoop protocol command data pm.plugins
  ({ pm with plugins := r.1 }, r.2.all PyVal.truthy)

/-! Concrete plugin instances, classes, import environments and directory
listings, used to evaluate the embedded operations on closed inputs. -/

/-- A plugin instance with no dependencies, no methods and benign hooks. -/
def mkPlain (id : Nat) (name : String) : PluginState :=
  { id := id, name := name, depends := Option.none, plugins := [],
    protocol := Option.none, methods := [], activateRaises := Option.none,
    deactivateRaises := Option.none }

/-- A well-behaved plugin class whose constructor returns `inst`. -/
def mkClass (inst : PluginState) : PluginClass :=
  { isBaseSubclass := true, isBaseItself := false,
    instantiate := Except.ok inst }

/-- Instance named `"Foo"`. -/
def fooUpper : PluginState := mkPlain 1 "Foo"

/-- Instance named `"foo"`, a case variant of `"Foo"`. -/
def fooLower : PluginState := mkPlain 2 "foo"

/-- Import environment exposing the two case-variant plugins in two
modules. -/
def dupImports : Imports := fun nm =>
  if nm = "foo_a" then Except.ok [mkClass fooUpper]
  else if nm = "foo_b" then Except.ok [mkClass fooLower]
  else Except.error PyError.importError

/-- Directory listing with the two case-variant candidates. -/
def dupEntries : List DirEntry :=
  [{ fname := "foo_a.py", isDir := false }, { fname := "foo_b.py", isDir := false }]

/-- P1: no `on_event` method. -/
def pOne : PluginState := mkPlain 11 "P1"

/-- P2: `on_event` returns `None`. -/
def pTwo : PluginState :=
  { mkPlain 12 "P2" with methods := [("on_event", fun _ _ => PyVal.none)] }

/-- P3: `on_event` returns `False`. -/
def pThree : PluginState :=
  { mkPlain 13 "P3" with methods := [("on_event", fun _ _ => PyVal.bool false)] }

/-- Manager with P1, P2, P3 loaded. -/
def pmThree : PluginManager :=
  { plugins := [pOne, pTwo, pThree], plugin_names := [] }

/-- Plugin B, declaring a dependency on `"A"`. -/
def bPlugin : PluginState := { mkPlain 41 "B" with depends := some ["A"] }

/-- Import environment exposing B under module name `"bmod"`. -/
def bImports : Imports := fun nm =>
  if nm = "bmod" then Except.ok [mkClass bPlugin]
  else Except.error PyError.importError

/-- Plugin A, no dependencies. -/
def aPlugin : PluginState := mkPlain 51 "A"

/-- Manager with A already loaded. -/
def pmWithA : PluginManager := { plugins := [aPlugin], plugin_names := [] }

/-- A well-behaved plugin named `"Good"`. -/
def goodPlugin : PluginState := mkPlain 3 "Good"

/-- A class whose constructor raises a non-`ImportError` exception. -/
def badClass : PluginClass :=
  { isBaseSubclass := true, isBaseItself := false,
    instantiate := Except.error (PyError.otherError "boom") }

/-- A class whose constructor raises an `ImportError`. -/
def badImportClass : PluginClass :=
  { isBaseSubclass := true, isBaseItself := false,
    instantiate := Except.error PyError.importError }

/-- Import environment with a broken module (`"bad"`, non-`ImportError`),
a module broken by `ImportError` at instantiation (`"badimp"`) and a good
module (`"good"`). -/
def mixedImports : Imports := fun nm =>
  if nm = "bad" then Except.ok [badClass]
  else if nm = "badimp" then Except.ok [badImportClass]
  else if nm = "good" then Except.ok [mkClass goodPlugin]
  else Except.error PyError.importError

/-- Plugin whose `on_event` returns the falsy non-`False` value `0`. -/
def pZero : PluginState :=
  { mkPlain 21 "Z" with methods := [("on_event", fun _ _ => PyVal.int 0)] }

/-- Manager holding only `pZero`. -/
def pmZero : PluginManager := { plugins := [pZero], plugin_names := [] }

/-- Plugin whose lifecycle hooks raise. -/
def pBoom : PluginState :=
  { mkPlain 31 "B1" with
    activateRaises := some (PyError.otherError "a-fail"),
    deactivateRaises := some (PyError.otherError "d-fail") }

/-- Plugin with benign hooks, loaded after `pBoom`. -/
def pAfter : PluginState := mkPlain 32 "B2"

/-- Manager with load order `[pBoom, pAfter]`. -/
def pmBoom : PluginManager := { plugins := [pBoom, pAfter], plugin_names := [] }

/-! Helper lemmas about the embedded operations. -/

/-- `get_by_name` is the scan loop over `self.plugins`. -/
theorem get_by_name_eq (pm : PluginManager) (name : String) :
    pm.get_by_name name = getByNameList name pm.plugins := rfl

/-- The scan loop only ever fails with `PluginNotFound` carrying the
source's message around the lower-cased query. -/
theorem getByNameList_error (name : String) (ps : List PluginState) (e : PyError)
    (h : getByNameList name ps = Except.error e) :
    e = PyError.pluginNotFound ("No plugin with name=" ++ strLower name ++ " found.") := by
  induction ps with
  | nil =>
    simp only [getByNameList, Except.error.injEq] at h
    exact h.symm
  | cons p rest ih =>
    by_cases hm : strLower p.name = strLower name
    · simp [getByNameList, hm] at h
    · simp only [getByNameList, if_neg hm] at h
      exact ih h

/-- A successful scan is preserved by appending further plugins. -/
theorem getByNameList_append (name : String) (ps qs : List PluginState)
    (a : PluginState) (h : getByNameList name ps = Except.ok a) :
    getByNameList name (ps ++ qs) = Except.ok a := by
  induction ps with
  | nil => simp [getByNameList] at h
  | cons p rest ih =>
    by_cases hm : strLower p.name = strLower name
    · simp only [getByNameList, if_pos hm] at h ⊢
      exact h
    · simp only [List.cons_append, getByNameList, if_neg hm] at h ⊢
      exact ih h

/-- Reading back the key just written into a dict. -/
theorem dictGet_dictSet (m : List (String × Nat)) (k : String) (v : Nat) :
    dictGet (dictSet m k v) k = some v := by
  induction m with
  | nil => simp [dictGet, dictSet]
  | cons kv rest ih =>
    obtain ⟨k2, v2⟩ := kv
    by_cases h : k2 = k
    · simp [dictGet, dictSet, h]
    · simp [dictGet, dictSet, h, ih]

/-- The state component of `do`'s loop: every plugin's `protocol` field is
overwritten with the supplied protocol. -/
theorem doLoop_fst (protocol : Nat) (command : String) (data : PyVal)
    (ps : List PluginState) :
    (doLoop protocol command data ps).1
      = ps.map (fun p => { p with protocol := some protocol }) := by
  induction ps with
  | nil => rfl
  | cons p rest ih => simp [doLoop, ih]

/-- The collected values of `do`'s loop are the per-plugin normalized
results. -/
theorem doLoop_snd (protocol : Nat) (command : String) (data : PyVal)
    (ps : List PluginState) :
    (doLoop protocol command data ps).2
      = ps.map (pluginResult protocol command data) := by
  induction ps with
  | nil => rfl
  | cons p rest ih => simp [doLoop, pluginResult, ih]

/-- Re-running `do`'s loop on plugins whose `protocol` field was already
overwritten gives the same answer: the field is overwritten again before
each method call. -/
theorem doLoop_overwrite (protocol : Nat) (command : String) (data : PyVal)
    (ps : List PluginState) :
    doLoop protocol command data
        (ps.map (fun p => { p with protocol := some protocol }))
      = doLoop protocol command data ps := by
  induction ps with
  | nil => rfl
  | cons p rest ih => simp [doLoop, ih]

/-- The dependency-resolution loop only ever fails with
`MissingDependency`. -/
theorem resolveDeps_error (pm : PluginManager) (inst : PluginState)
    (deps : List String) (e : PyError)
    (h : resolveDeps pm inst deps = Except.error e) :
    ∃ d, e = PyError.missingDependency d := by
  induction deps generalizing inst with
  | nil => simp [resolveDeps] at h
  | cons d rest ih =>
    rw [resolveDeps] at h
    cases hg : pm.get_by_name d with
    | error e2 =>
      rw [hg] at h
      have hshape := getByNameList_error d pm.plugins e2 hg
      subst hshape
      simp only [PyError.isPluginNotFound, if_pos, Except.error.injEq] at h
      exact ⟨d, h.symm⟩
    | ok dep =>
      rw [hg] at h
      exact ih _ h

/-- An exception escaping the member loop is either an instantiation
failure of one of the classes or a `MissingDependency`. -/
theorem loadMembers_error (pm : PluginManager) (classes : List PluginClass)
    (e : PyError) (h : (loadMembers pm classes).2 = some e) :
    (∃ cls ∈ classes, cls.instantiate = Except.error e)
      ∨ ∃ d, e = PyError.missingDependency d := by
  induction classes generalizing pm with
  | nil => simp [loadMembers] at h
  | cons cls rest ih =>
    rw [loadMembers] at h
    by_cases hq : cls.isBaseSubclass && !cls.isBaseItself
    · rw [if_pos hq] at h
      cases hi : cls.instantiate with
      | error e2 =>
        simp only [hi, Option.some.injEq] at h
        subst h
        exact Or.inl ⟨cls, List.mem_cons_self cls rest, hi⟩
      | ok inst =>
        simp only [hi] at h
        by_cases hn : inst.name ∈ pm.plugin_names
        · rw [if_pos hn] at h
          rcases ih pm h with ⟨c, hc, hce⟩ | hmd
          · exact Or.inl ⟨c, List.mem_cons_of_mem cls hc, hce⟩
          · exact Or.inr hmd
        · rw [if_neg hn] at h
          cases hd : inst.depends with
          | none =>
            simp only [hd] at h
            rcases ih _ h with ⟨c, hc, hce⟩ | hmd
            · exact Or.inl ⟨c, List.mem_cons_of_mem cls hc, hce⟩
            · exact Or.inr hmd
          | some deps =>
            simp only [hd] at h
            cases hr : resolveDeps pm inst deps with
            | error e2 =>
              simp only [hr, Option.some.injEq] at h
              subst h
              exact Or.inr (resolveDeps_error pm inst deps e2 hr)
            | ok inst2 =>
              simp only [hr] at h
              rcases ih _ h with ⟨c, hc, hce⟩ | hmd
              · exact Or.inl ⟨c, List.mem_cons_of_mem cls hc, hce⟩
              · exact Or.inr hmd
    · rw [if_neg hq] at h
      rcases ih pm h with ⟨c, hc, hce⟩ | hmd
      · exact Or.inl ⟨c, List.mem_cons_of_mem cls hc, hce⟩
      · exact Or.inr hmd

/-! Claim theorems. -/

/-- Claim C1, evaluated at the failing input: loading the two case-variant
candidates "Foo" then "foo" leaves BOTH instances in the registry — the
duplicate check `if plugin_instance.name in self.plugin_names` never fires
because `plugin_names` is never appended to — contradicting the claimed
at-most-one-instance-per-normalized-name invariant; `get_by_name "FOO"`
does return the first-loaded instance, as the claim says. -/
theorem dup_names_both_kept :
    ((PluginManager.mkEmpty.load_plugins dupImports dupEntries).1.plugins.map
        PluginState.name = ["Foo", "foo"])
    ∧ (PluginManager.mkEmpty.load_plugins dupImports dupEntries).2 = Option.none
    ∧ (PluginManager.mkEmpty.load_plugins dupImports dupEntries).1.get_by_name "FOO"
        = Except.ok fooUpper :=
  ⟨by decide, by decide, rfl⟩

/-- Claim C2: dispatch veto semantics.  `do` overwrites every plugin's
`protocol` field with the supplied protocol, invokes the method named by
`command` with `data` (substituting a default returning true when absent),
normalizes a returned `None` to true, and returns the truthiness
conjunction of all normalized results; in particular, with P1 lacking the
method, P2 returning `None` and P3 returning `False`, the aggregate is
false and all three plugins' `protocol` fields equal the supplied protocol
afterwards. -/
theorem do_veto_semantics :
    ∀ (pm : PluginManager) (protocol : Nat) (command : String) (data : PyVal),
    ((pm.doCommand protocol command data).1.plugins
        = pm.plugins.map (fun p => { p with protocol := some protocol })
      ∧ (pm.doCommand protocol command data).2
        = (pm.plugins.map (pluginResult protocol command data)).all PyVal.truthy)
    ∧ ∀ (p1 p2 p3 : PluginState) (f2 f3 : Option Nat → PyVal → PyVal),
        pm.plugins = [p1, p2, p3] →
        getMethod p1.methods command = Option.none →
        getMethod p2.methods command = some f2 →
        f2 (some protocol) data = PyVal.none →
        getMethod p3.methods command = some f3 →
        f3 (some protocol) data = PyVal.bool false →
        (pm.doCommand protocol command data).2 = false
        ∧ ∀ q ∈ (pm.doCommand protocol command data).1.plugins,
            q.protocol = some protocol := by
  intro pm protocol command data
  refine ⟨⟨?_, ?_⟩, ?_⟩
  · simp [PluginManager.doCommand, doLoop_fst]
  · simp [PluginManager.doCommand, doLoop_snd]
  · intro p1 p2 p3 f2 f3 hps h1 h2 h3 h4 h5
    constructor
    · simp [PluginManager.doCommand, doLoop_snd, hps, pluginResult,
        h1, h2, h3, h4, h5, PyVal.truthy]
    · intro q hq
      simp only [PluginManager.doCommand, doLoop_fst, List.mem_map] at hq
      obtain ⟨p, _, hpq⟩ := hq
      subst hpq
      rfl

/-- Claim C2 witness: the three-plugin scenario evaluated concretely. -/
theorem do_veto_semantics_witness :
    (pmThree.doCommand 7 "on_event" (PyVal.int 5)).2 = false
    ∧ ∀ q ∈ (pmThree.doCommand 7 "on_event" (PyVal.int 5)).1.plugins,
        q.protocol = some 7 :=
  (do_veto_semantics pmThree 7 "on_event" (PyVal.int 5)).2
    pOne pTwo pThree (fun _ _ => PyVal.none) (fun _ _ => PyVal.bool false)
    rfl rfl rfl rfl rfl rfl

/-- Claim C9: dispatch idempotence.  Command methods are embedded as pure
functions of the (freshly set) `protocol` field and the payload, so the
only state `do` changes is each plugin's `protocol` field; running `do`
again with identical inputs on the resulting manager yields the same
aggregate result and the same manager state. -/
theorem do_idempotent :
    ∀ (pm : PluginManager) (protocol : Nat) (command : String) (data : PyVal),
      ((pm.doCommand protocol command data).1.doCommand protocol command data).2
        = (pm.doCommand protocol command data).2
      ∧ ((pm.doCommand protocol command data).1.doCommand protocol command data).1
        = (pm.doCommand protocol command data).1 := by
  intro pm protocol command data
  constructor
  · simp [PluginManager.doCommand, doLoop_fst, doLoop_overwrite]
  · simp [PluginManager.doCommand, doLoop_fst, doLoop_overwrite]

/-- Claim C10: falsy returns veto.  The aggregate is the truthiness
conjunction of the normalized results, so a plugin method returning a
falsy value other than the literal `False` — such as the int `0` or the
empty string, both falsy yet distinct from `False` — forces `do` to
return false. -/
theorem falsy_result_vetoes :
    ((PyVal.truthy (PyVal.int 0) = false ∧ PyVal.int 0 ≠ PyVal.bool false)
      ∧ (PyVal.truthy (PyVal.str "") = false ∧ PyVal.str "" ≠ PyVal.bool false))
    ∧ ∀ (pm : PluginManager) (protocol : Nat) (command : String) (data : PyVal)
        (p : PluginState) (f : Option Nat → PyVal → PyVal) (v : PyVal),
        p ∈ pm.plugins →
        getMethod p.methods command = some f →
        f (some protocol) data = v →
        v ≠ PyVal.none →
        PyVal.truthy v = false →
        (pm.doCommand protocol command data).2 = false := by
  refine ⟨⟨⟨by decide, by decide⟩, ⟨by decide, by decide⟩⟩, ?_⟩
  intro pm protocol command data p f v hmem hf hv hne htr
  have hres : pluginResult protocol command data p = v := by
    simp [pluginResult, hf, hv, hne]
  have hv2 : v ∈ pm.plugins.map (pluginResult protocol command data) :=
    hres ▸ List.mem_map_of_mem _ hmem
  unfold PluginManager.doCommand
  simp only [doLoop_snd]
  cases hall : (pm.plugins.map (pluginResult protocol command data)).all PyVal.truthy with
  | false => rfl
  | true =>
    have := List.all_eq_true.mp hall v hv2
    rw [htr] at this
    cases this

/-- Claim C10 witness: a plugin whose method returns the int `0` vetoes. -/
theorem falsy_result_vetoes_witness :
    (pmZero.doCommand 1 "on_event" PyVal.none).2 = false :=
  falsy_result_vetoes.2 pmZero 1 "on_event" PyVal.none pZero
    (fun _ _ => PyVal.int 0) (PyVal.int 0)
    (by simp [pmZero]) rfl rfl (by decide) (by decide)

/-- The scan loop of `get_by_name` is the first-match search over the
registry. -/
theorem getByNameList_eq_find (name : String) (ps : List PluginState) :
    getByNameList name ps =
      (match ps.find? (fun p => strLower p.name == strLower name) with
       | some p => Except.ok p
       | Option.none =>
         Except.error (PyError.pluginNotFound
           ("No plugin with name=" ++ strLower name ++ " found."))) := by
  induction ps with
  | nil => rfl
  | cons p rest ih =>
    by_cases hm : strLower p.name = strLower name
    · rw [List.find?_cons_of_pos _ (by simp [hm])]
      simp [getByNameList, hm]
    · rw [List.find?_cons_of_neg _ (by simp [hm])]
      simp only [getByNameList, if_neg hm]
      exact ih

/-- Claim C5: lookup contract.  `get_by_name` is a case-insensitive
first-match scan in load order; it fails exactly when no plugin's
lower-cased name equals the lower-cased query, and every failure is a
`PluginNotFound` carrying the normalized (lower-cased) requested name in
the source's message format. -/
theorem get_by_name_contract :
    ∀ (pm : PluginManager) (name : String),
      (pm.get_by_name name =
        (match pm.plugins.find? (fun p => strLower p.name == strLower name) with
         | some p => Except.ok p
         | Option.none =>
           Except.error (PyError.pluginNotFound
             ("No plugin with name=" ++ strLower name ++ " found."))))
      ∧ (pm.get_by_name name
          = Except.error (PyError.pluginNotFound
              ("No plugin with name=" ++ strLower name ++ " found."))
          ↔ ∀ p ∈ pm.plugins, strLower p.name ≠ strLower name)
      ∧ ∀ e, pm.get_by_name name = Except.error e →
          e = PyError.pluginNotFound
            ("No plugin with name=" ++ strLower name ++ " found.") := by
  intro pm name
  refine ⟨getByNameList_eq_find name pm.plugins, ?_,
    fun e he => getByNameList_error name pm.plugins e he⟩
  rw [get_by_name_eq, getByNameList_eq_find]
  cases hfind : pm.plugins.find? (fun p => strLower p.name == strLower name) with
  | none =>
    constructor
    · intro _ p hp
      have := List.find?_eq_none.mp hfind p hp
      simpa using this
    · intro _
      rfl
  | some q =>
    constructor
    · intro he
      exact Except.noConfusion he
    · intro hall
      have hq := List.find?_some hfind
      exact absurd (by simpa using hq) (hall q (List.mem_of_find?_eq_some hfind))

/-- Claim C5 witness: looking up a name no plugin has fails with the
normalized-name message. -/
theorem get_by_name_contract_witness :
    pmThree.get_by_name "nonexistent"
      = Except.error
          (PyError.pluginNotFound "No plugin with name=nonexistent found.") := by
  have h := (get_by_name_contract pmThree "nonexistent").1
  exact h.trans (by rfl)

/-- When no hook raises, the activate loop invokes every plugin in load
order. -/
theorem activateLoop_complete (ps : List PluginState)
    (h : ∀ p ∈ ps, p.activateRaises = Option.none) :
    activateLoop ps = (ps.map PluginState.id, Option.none) := by
  induction ps with
  | nil => rfl
  | cons p rest ih =>
    have hp := h p (List.mem_cons_self p rest)
    simp [activateLoop, hp, ih (fun q hq => h q (List.mem_cons_of_mem p hq))]

/-- Claim C6: lifecycle fail-fast.  `activate_plugins` and
`deactivate_plugins` run the hook on each plugin in load order; when the
first plugin's hook raises, the exception propagates, iteration stops and
no later plugin's hook is invoked (the invocation trace is just the first
plugin); when no hook raises, every plugin is invoked in load order. -/
theorem lifecycle_fail_fast :
    (∀ (pm : PluginManager) (p1 : PluginState) (rest : List PluginState)
        (e : PyError),
        pm.plugins = p1 :: rest → p1.activateRaises = some e →
        pm.activate_plugins = ([p1.id], some e))
    ∧ (∀ (pm : PluginManager) (p1 : PluginState) (rest : List PluginState)
        (e : PyError),
        pm.plugins = p1 :: rest → p1.deactivateRaises = some e →
        pm.deactivate_plugins = ([p1.id], some e))
    ∧ ∀ pm : PluginManager,
        (∀ p ∈ pm.plugins, p.activateRaises = Option.none) →
        pm.activate_plugins = (pm.plugins.map PluginState.id, Option.none) := by
  refine ⟨?_, ?_, ?_⟩
  · intro pm p1 rest e hps he
    unfold PluginManager.activate_plugins
    rw [hps]
    simp [activateLoop, he]
  · intro pm p1 rest e hps he
    unfold PluginManager.deactivate_plugins
    rw [hps]
    simp [deactivateLoop, he]
  · intro pm h
    exact activateLoop_complete pm.plugins h

/-- Claim C6 witness: with load order `[pBoom, pAfter]` and `pBoom`'s hooks
raising, only `pBoom`'s hook is invoked and the exception propagates. -/
theorem lifecycle_fail_fast_witness :
    pmBoom.activate_plugins = ([31], some (PyError.otherError "a-fail"))
    ∧ pmBoom.deactivate_plugins = ([31], some (PyError.otherError "d-fail")) :=
  ⟨lifecycle_fail_fast.1 pmBoom pBoom [pAfter] (PyError.otherError "a-fail")
      rfl rfl,
   lifecycle_fail_fast.2.1 pmBoom pBoom [pAfter] (PyError.otherError "d-fail")
      rfl rfl⟩

/-- Claim C3: missing-dependency failure.  When a candidate's first
qualifying class instantiates to a plugin whose first declared dependency
is not in the registry, `load_plugins` stops with `MissingDependency`
carrying the missing name: the error propagates uncaught (it is not an
`ImportError`), no further directory entries are processed, and the
registry is left exactly as it was — plugins appended before the failure
remain. -/
theorem missing_dependency_aborts_load :
    ∀ (imports : Imports) (pm : PluginManager) (e : DirEntry) (nm : String)
      (cls : PluginClass) (more : List PluginClass) (inst : PluginState)
      (d : String) (ds : List String) (rest : List DirEntry),
      candidateName e = some nm →
      imports nm = Except.ok (cls :: more) →
      cls.isBaseSubclass = true →
      cls.isBaseItself = false →
      cls.instantiate = Except.ok inst →
      inst.name ∉ pm.plugin_names →
      inst.depends = some (d :: ds) →
      (∃ err, pm.get_by_name d = Except.error err) →
      pm.load_plugins imports (e :: rest)
        = (pm, some (PyError.missingDependency d)) := by
  intro imports pm e nm cls more inst d ds rest hc hi hsub hbase hinst hname hdep hex
  obtain ⟨err, herr⟩ := hex
  have hshape := getByNameList_error d pm.plugins err herr
  subst hshape
  have hres : resolveDeps pm inst (d :: ds)
      = Except.error (PyError.missingDependency d) := by
    simp [resolveDeps, herr, PyError.isPluginNotFound]
  have hmem : loadMembers pm (cls :: more)
      = (pm, some (PyError.missingDependency d)) := by
    simp [loadMembers, hsub, hbase, hinst, hname, hdep, hres]
  have hcand : loadCandidate imports pm nm
      = (pm, some (PyError.missingDependency d)) := by
    simp [loadCandidate, hi, hmem, PyError.isImportError]
  simp [PluginManager.load_plugins, hc, hcand]

/-- Claim C3 witness: loading B (depending on the absent "A") with a
further candidate behind it raises `MissingDependency "A"`, loads nothing
and skips the rest of the pass. -/
theorem missing_dependency_aborts_load_witness :
    PluginManager.mkEmpty.load_plugins bImports
        [{ fname := "bmod.py", isDir := false }, { fname := "x.py", isDir := false }]
      = (PluginManager.mkEmpty, some (PyError.missingDependency "A")) :=
  missing_dependency_aborts_load bImports PluginManager.mkEmpty
    { fname := "bmod.py", isDir := false } "bmod" (mkClass bPlugin) [] bPlugin
    "A" [] [{ fname := "x.py", isDir := false }]
    rfl rfl rfl rfl rfl (by simp [PluginManager.mkEmpty]) rfl
    ⟨PyError.pluginNotFound "No plugin with name=a found.", rfl⟩

/-- Claim C4: successful dependency wiring.  Loading a candidate whose
plugin declares `depends=[d]` while some plugin named `d` is registered
succeeds: the resolved instance's identity is stored in the dependent's
dependency dict under `d`, the dependent is appended to the registry, and
the stored identity is exactly that of the instance `get_by_name d`
returns (before and after the append). -/
theorem dependency_wiring_success :
    ∀ (imports : Imports) (pm : PluginManager) (e : DirEntry) (nm : String)
      (cls : PluginClass) (inst a : PluginState) (d : String),
      candidateName e = some nm →
      imports nm = Except.ok [cls] →
      cls.isBaseSubclass = true →
      cls.isBaseItself = false →
      cls.instantiate = Except.ok inst →
      inst.name ∉ pm.plugin_names →
      inst.depends = some [d] →
      pm.get_by_name d = Except.ok a →
      pm.load_plugins imports [e]
        = ({ pm with plugins := pm.plugins
              ++ [{ inst with plugins := dictSet inst.plugins d a.id }] },
           Option.none)
      ∧ dictGet (dictSet inst.plugins d a.id) d = some a.id
      ∧ PluginManager.get_by_name
          { pm with plugins := pm.plugins
              ++ [{ inst with plugins := dictSet inst.plugins d a.id }] } d
        = Except.ok a := by
  intro imports pm e nm cls inst a d hc hi hsub hbase hinst hname hdep ha
  refine ⟨?_, dictGet_dictSet inst.plugins d a.id, ?_⟩
  · have hres : resolveDeps pm inst [d]
        = Except.ok { inst with plugins := dictSet inst.plugins d a.id } := by
      simp [resolveDeps, ha]
    have hmem : loadMembers pm [cls]
        = ({ pm with plugins := pm.plugins
              ++ [{ inst with plugins := dictSet inst.plugins d a.id }] },
           Option.none) := by
      simp [loadMembers, hsub, hbase, hinst, hname, hdep, hres]
    have hcand : loadCandidate imports pm nm
        = ({ pm with plugins := pm.plugins
              ++ [{ inst with plugins := dictSet inst.plugins d a.id }] },
           Option.none) := by
      simp [loadCandidate, hi, hmem]
    simp [PluginManager.load_plugins, hc, hcand]
  · rw [get_by_name_eq]
    exact getByNameList_append d pm.plugins _ a ha

/-- Claim C4 witness: loading B (`depends=["A"]`) after A is registered
appends B with `plugins["A"]` holding A's identity, and `get_by_name "A"`
still returns A. -/
theorem dependency_wiring_success_witness :
    pmWithA.load_plugins bImports [{ fname := "bmod.py", isDir := false }]
      = ({ pmWithA with plugins := pmWithA.plugins
            ++ [{ bPlugin with plugins := dictSet bPlugin.plugins "A" aPlugin.id }] },
         Option.none)
    ∧ dictGet (dictSet bPlugin.plugins "A" aPlugin.id) "A" = some aPlugin.id
    ∧ PluginManager.get_by_name
        { pmWithA with plugins := pmWithA.plugins
            ++ [{ bPlugin with plugins := dictSet bPlugin.plugins "A" aPlugin.id }] }
        "A"
      = Except.ok aPlugin :=
  dependency_wiring_success bImports pmWithA { fname := "bmod.py", isDir := false }
    "bmod" (mkClass bPlugin) bPlugin aPlugin "A"
    rfl rfl rfl rfl rfl (by simp [pmWithA]) rfl rfl

/-- Claim C7 counterexample: the first candidate's class raises a
non-`ImportError` at instantiation and the failure is NOT caught — it
propagates out of `load_plugins` and the well-formed second candidate is
never loaded (alone, that candidate loads plugin "Good") — refuting the
claim that any import or instantiation failure is silently skipped with
loading proceeding to the remaining candidates. -/
theorem instantiation_failure_not_skipped :
    PluginManager.mkEmpty.load_plugins mixedImports
        [{ fname := "bad.py", isDir := false },
         { fname := "good.py", isDir := false }]
      = (PluginManager.mkEmpty, some (PyError.otherError "boom"))
    ∧ (PluginManager.mkEmpty.load_plugins mixedImports
          [{ fname := "good.py", isDir := false }]).1.plugins.map PluginState.name
        = ["Good"] :=
  ⟨rfl, by decide⟩

/-- Claim C7 amended: only `ImportError` is caught and skipped.  An
`ImportError` raised while importing a candidate, or while instantiating
its first qualifying class, is swallowed and loading proceeds with the
remaining candidates; an instantiation failure that is not an
`ImportError` propagates and aborts the pass. -/
theorem import_error_only_skipped :
    (∀ (imports : Imports) (pm : PluginManager) (e : DirEntry) (nm : String)
        (rest : List DirEntry),
        candidateName e = some nm →
        imports nm = Except.error PyError.importError →
        pm.load_plugins imports (e :: rest) = pm.load_plugins imports rest)
    ∧ (∀ (imports : Imports) (pm : PluginManager) (e : DirEntry) (nm : String)
        (cls : PluginClass) (more : List PluginClass) (rest : List DirEntry),
        candidateName e = some nm →
        imports nm = Except.ok (cls :: more) →
        cls.isBaseSubclass = true →
        cls.isBaseItself = false →
        cls.instantiate = Except.error PyError.importError →
        pm.load_plugins imports (e :: rest) = pm.load_plugins imports rest)
    ∧ ∀ (imports : Imports) (pm : PluginManager) (e : DirEntry) (nm : String)
        (cls : PluginClass) (more : List PluginClass) (rest : List DirEntry)
        (err : PyError),
        candidateName e = some nm →
        imports nm = Except.ok (cls :: more) →
        cls.isBaseSubclass = true →
        cls.isBaseItself = false →
        cls.instantiate = Except.error err →
        err.isImportError = false →
        pm.load_plugins imports (e :: rest) = (pm, some err) := by
  refine ⟨?_, ?_, ?_⟩
  · intro imports pm e nm rest hc hi
    have hcand : loadCandidate imports pm nm = (pm, Option.none) := by
      simp [loadCandidate, hi, PyError.isImportError]
    simp [PluginManager.load_plugins, hc, hcand]
  · intro imports pm e nm cls more rest hc hi hsub hbase hinst
    have hmem : loadMembers pm (cls :: more) = (pm, some PyError.importError) := by
      simp [loadMembers, hsub, hbase, hinst]
    have hcand : loadCandidate imports pm nm = (pm, Option.none) := by
      simp [loadCandidate, hi, hmem, PyError.isImportError]
    simp [PluginManager.load_plugins, hc, hcand]
  · intro imports pm e nm cls more rest err hc hi hsub hbase hinst herr
    have hmem : loadMembers pm (cls :: more) = (pm, some err) := by
      simp [loadMembers, hsub, hbase, hinst]
    have hcand : loadCandidate imports pm nm = (pm, some err) := by
      simp [loadCandidate, hi, hmem, herr]
    simp [PluginManager.load_plugins, hc, hcand]

/-- Claim C7 (amended) witness: a failing import and an `ImportError`
instantiation are skipped with loading proceeding; the non-`ImportError`
instantiation failure propagates. -/
theorem import_error_only_skipped_witness :
    (PluginManager.mkEmpty.load_plugins mixedImports
        [{ fname := "gone.py", isDir := false },
         { fname := "good.py", isDir := false }]
      = PluginManager.mkEmpty.load_plugins mixedImports
          [{ fname := "good.py", isDir := false }])
    ∧ (PluginManager.mkEmpty.load_plugins mixedImports
        [{ fname := "badimp.py", isDir := false },
         { fname := "good.py", isDir := false }]
      = PluginManager.mkEmpty.load_plugins mixedImports
          [{ fname := "good.py", isDir := false }])
    ∧ PluginManager.mkEmpty.load_plugins mixedImports
        [{ fname := "bad.py", isDir := false },
         { fname := "good.py", isDir := false }]
      = (PluginManager.mkEmpty, some (PyError.otherError "boom")) :=
  ⟨import_error_only_skipped.1 mixedImports PluginManager.mkEmpty
      { fname := "gone.py", isDir := false } "gone"
      [{ fname := "good.py", isDir := false }] rfl rfl,
   import_error_only_skipped.2.1 mixedImports PluginManager.mkEmpty
      { fname := "badimp.py", isDir := false } "badimp" badImportClass []
      [{ fname := "good.py", isDir := false }] rfl rfl rfl rfl rfl,
   import_error_only_skipped.2.2 mixedImports PluginManager.mkEmpty
      { fname := "bad.py", isDir := false } "bad" badClass []
      [{ fname := "good.py", isDir := false }] (PyError.otherError "boom")
      rfl rfl rfl rfl rfl rfl⟩

/-- An exception escaping one candidate is the import failure itself, an
instantiation failure of one of the candidate's classes, or a
`MissingDependency`. -/
theorem loadCandidate_error (imports : Imports) (pm : PluginManager)
    (nm : String) (e : PyError)
    (h : (loadCandidate imports pm nm).2 = some e) :
    imports nm = Except.error e
    ∨ (∃ classes, imports nm = Except.ok classes
        ∧ ∃ cls ∈ classes, cls.instantiate = Except.error e)
    ∨ ∃ d, e = PyError.missingDependency d := by
  unfold loadCandidate at h
  cases hi : imports nm with
  | error e2 =>
    simp only [hi] at h
    by_cases himp : e2.isImportError = true
    · simp [himp] at h
    · simp only [Bool.not_eq_true] at himp
      simp only [himp, Bool.false_eq_true, if_false, Option.some.injEq] at h
      subst h
      exact Or.inl rfl
  | ok classes =>
    simp only [hi] at h
    rcases hm : loadMembers pm classes with ⟨pm2, oe⟩
    cases oe with
    | none => simp [hm] at h
    | some e2 =>
      simp only [hm] at h
      by_cases himp : e2.isImportError = true
      · simp [himp] at h
      · simp only [Bool.not_eq_true] at himp
        simp only [himp, Bool.false_eq_true, if_false, Option.some.injEq] at h
        subst h
        have h3 : (loadMembers pm classes).2 = some e2 := by rw [hm]
        rcases loadMembers_error pm classes e2 h3 with ⟨c, hc, hce⟩ | hmd
        · exact Or.inr (Or.inl ⟨classes, rfl, c, hc, hce⟩)
        · exact Or.inr (Or.inr hmd)

/-- Claim C8: `DuplicatePlugin` is never raised.  For every loading
sequence over an environment whose imports and plugin constructors do not
themselves raise `DuplicatePluginError`, no `load_plugins` execution
signals it: a name conflict takes the silent skip path, and the only
loader-generated condition is `MissingDependency`. -/
theorem duplicate_plugin_never_raised :
    ∀ (imports : Imports) (pm : PluginManager) (entries : List DirEntry),
      (∀ nm, imports nm ≠ Except.error PyError.duplicatePlugin) →
      (∀ nm classes cls, imports nm = Except.ok classes → cls ∈ classes →
        cls.instantiate ≠ Except.error PyError.duplicatePlugin) →
      (pm.load_plugins imports entries).2 ≠ some PyError.duplicatePlugin := by
  intro imports pm entries h1 h2
  induction entries generalizing pm with
  | nil => simp [PluginManager.load_plugins]
  | cons e rest ih =>
    intro hcontra
    cases hc : candidateName e with
    | none =>
      rw [PluginManager.load_plugins] at hcontra
      simp only [hc] at hcontra
      exact ih pm hcontra
    | some nm =>
      rcases hl : loadCandidate imports pm nm with ⟨pm2, oe⟩
      cases oe with
      | none =>
        rw [PluginManager.load_plugins] at hcontra
        simp only [hc, hl] at hcontra
        exact ih pm2 hcontra
      | some err =>
        rw [PluginManager.load_plugins] at hcontra
        simp only [hc, hl, Option.some.injEq] at hcontra
        subst hcontra
        have h3 : (loadCandidate imports pm nm).2 = some PyError.duplicatePlugin := by
          rw [hl]
        rcases loadCandidate_error imports pm nm _ h3 with
          hA | ⟨classes, hok, cls, hmem, hinst⟩ | ⟨d, hd⟩
        · exact h1 nm hA
        · exact h2 nm classes cls hok hmem hinst
        · exact PyError.noConfusion hd

/-- Claim C8 witness: a concrete loading run (B with a missing dependency,
which does raise — but `MissingDependency`, not `DuplicatePlugin`). -/
theorem duplicate_plugin_never_raised_witness :
    (PluginManager.mkEmpty.load_plugins bImports
        [{ fname := "bmod.py", isDir := false }]).2
      ≠ some PyError.duplicatePlugin :=
  duplicate_plugin_never_raised bImports PluginManager.mkEmpty
    [{ fname := "bmod.py", isDir := false }]
    (by intro nm
        by_cases h : nm = "bmod" <;> simp [bImports, h])
    (by intro nm classes cls hok hmem
        by_cases h : nm = "bmod"
        · rw [show bImports nm = Except.ok [mkClass bPlugin] by simp [bImports, h]] at hok
          injection hok with hok
          subst hok
          rw [List.mem_singleton] at hmem
          subst hmem
          simp [mkClass]
        · rw [show bImports nm = Except.error PyError.importError by simp [bImports, h]] at hok
          exact Except.noConfusion hok)

end StarryPy
